import Mathlib

/-!
Verification development for the monthly-traffic-report engine.

The Python source is embedded shallowly:

* spreadsheet cells are `CellVal`: an explicit absence marker (Python `None`
  / pandas `NaN`), text, or an exact rational number (machine floats are
  modelled as rationals; float overflow/NaN propagation is outside the model,
  and the non-finiteness guards of the source are therefore vacuous here);
* a cell holding numeric text is modelled as `CellVal.num` (the source coerces
  such text with `pd.to_numeric`/`float`), so `CellVal.str` stands for text
  that does not parse as a number;
* Python `round(x, 2)` and the `"{:.2f}"` format both round half to even and
  are modelled by `roundHalfEven`;
* pandas DataFrames are `DataFrame` (ordered column labels plus row lists,
  rows indexed by position, which models the re-indexed RangeIndex);
* openpyxl worksheets are `Grid`: a total function from 1-indexed
  (row, column) to `CellVal`.
-/

namespace GA4

attribute [local semireducible] Rat.mul Rat.add Rat.sub Rat.inv Rat.ofScientific

/-- A spreadsheet / DataFrame cell: explicit absence (`None`/`NaN`), text, or
a numeric value. -/
inductive CellVal where
  | absent : CellVal
  | str : String → CellVal
  | num : ℚ → CellVal
deriving DecidableEq, Repr

/-- Lower-casing of an ASCII letter (the labels the source inspects are
ASCII). -/
def charLower (c : Char) : Char :=
  if 65 ≤ c.toNat ∧ c.toNat ≤ 90 then Char.ofNat (c.toNat + 32) else c

/-- Python's `str.lower`, on the ASCII labels of the sheet. -/
def strLower (s : String) : String :=
  ⟨s.data.map charLower⟩

/-- Whitespace for `str.strip` (space, tab, newline, carriage return). -/
def isWS (c : Char) : Bool :=
  c == ' ' || c == '\t' || c == '\n' || c == '\r'

/-- Python's `str.strip`. -/
def strTrim (s : String) : String :=
  ⟨((s.data.dropWhile isWS).reverse.dropWhile isWS).reverse⟩

/-- Substring test on character lists: some suffix of `l` starts with `pat`. -/
def listHasInfix (l pat : List Char) : Bool :=
  l.tails.any fun t => pat.isPrefixOf t

/-- Python's `pat in s` substring test. -/
def strContains (s pat : String) : Bool :=
  listHasInfix s.data pat.data

/-- Python's `str.endswith`. -/
def strEndsWith (s pat : String) : Bool :=
  pat.data.isSuffixOf s.data

/-- Python truthiness of a cell value (`None`, `""` and `0` are falsy). -/
def truthy : CellVal → Bool
  | CellVal.absent => false
  | CellVal.str s => !(s == "")
  | CellVal.num q => !(q == 0)

/-- Python `str()` of a cell, as far as the source inspects it (substring
tests for keywords, and trimmed text).  `str(nan) = "nan"`.  Integer-valued
numbers print as their digits; the decimal text of a non-integer number
contains no keyword the source ever searches for, so it is modelled by a
neutral placeholder. -/
def pyStr : CellVal → String
  | CellVal.absent => "nan"
  | CellVal.str s => s
  | CellVal.num q => if q.den = 1 then toString q.num else "#num"

/-- Embeds `pd.to_numeric(·, errors='coerce')` on a cell: numbers pass through,
absence and non-numeric text coerce to `NaN` (modelled as `Option.none`). -/
def toNum : CellVal → Option ℚ
  | CellVal.num q => some q
  | _ => none

/-- A `CellVal` from an optional computed metric (`None` stays absent). -/
def cellOfOpt : Option ℚ → CellVal
  | some q => CellVal.num q
  | none => CellVal.absent

/-- Round half to even to an integer (Python's `round` / `"{:.2f}"` tie rule). -/
def roundHalfEven (x : ℚ) : ℤ :=
  let f := ⌊x⌋
  let r := x - f
  if r < 1 / 2 then f
  else if 1 / 2 < r then f + 1
  else if f % 2 = 0 then f else f + 1

/-- Python `round(x, 2)`. -/
def roundTo2 (x : ℚ) : ℚ :=
  (roundHalfEven (x * 100) : ℚ) / 100

/-- Embeds `excel_utils.safe_percentage_calculation`: guarded percentage of a
difference over a base.  The `NaN`/infinity guards of the float original are
vacuous over `ℚ`; the zero-denominator guard remains. -/
def safe_percentage_calculation (numerator denominator : ℚ) : Option ℚ :=
  if denominator = 0 then none
  else some (roundTo2 (numerator / denominator * 100))

/-- Embeds `excel_utils.calculate_yoy_percentage` on the already-coerced year values
(`Option.none` is a missing or non-numeric cell). -/
def calculate_yoy_percentage (value_2024 value_2025 : Option ℚ) : Option ℚ :=
  match value_2024, value_2025 with
  | some v24, some v25 =>
      if v24 ≤ 0 then none
      else safe_percentage_calculation (v25 - v24) v24
  | _, _ => none

/-- Embeds `excel_utils.calculate_lm_percentage` on the already-coerced month values. -/
def calculate_lm_percentage (current_value previous_value : Option ℚ) : Option ℚ :=
  match current_value, previous_value with
  | some cur, some prev =>
      if prev ≤ 0 then none
      else safe_percentage_calculation (cur - prev) prev
  | _, _ => none

/-- Rendering used by `excel_utils.format_percentage_for_excel`: two-decimal percent text,
empty for absence.  `fmtFixed2` renders the sign, integer part and exactly
two fractional digits of the half-even rounding. -/
def fmtFixed2 (q : ℚ) : String :=
  let n : ℤ := roundHalfEven (q * 100)
  let sgn := if n < 0 then "-" else ""
  let m := n.natAbs
  sgn ++ toString (m / 100) ++ "." ++
    (if m % 100 < 10 then "0" ++ toString (m % 100) else toString (m % 100))

/-- Embeds `excel_utils.format_percentage_for_excel`. -/
def format_percentage_for_excel : Option ℚ → String
  | none => ""
  | some q => fmtFixed2 q ++ "%"

/-- A pandas DataFrame: ordered column labels and rows of cells (a row's
`i`-th entry belongs to the `i`-th column; positional row index models the
contiguous RangeIndex produced by `reset_index`). -/
structure DataFrame where
  columns : List String
  rows : List (List CellVal)
deriving DecidableEq, Repr

/-- The cell of a row under a column label (first matching label, as pandas
column lookup with unique labels). -/
def cellAt (df : DataFrame) (r : List CellVal) (c : String) : CellVal :=
  match df.columns.findIdx? (· == c) with
  | some i => r.getD i CellVal.absent
  | none => CellVal.absent

/-- Embeds `pd.to_numeric(row[c], errors='coerce')`. -/
def toNumAt (df : DataFrame) (r : List CellVal) (c : String) : Option ℚ :=
  toNum (cellAt df r c)

/-- The full column under a label. -/
def columnVals (df : DataFrame) (c : String) : List CellVal :=
  df.rows.map fun r => cellAt df r c

/-- Sum of the numeric entries of a cell list (`pd.to_numeric(...).sum()`
skips `NaN`; an all-`NaN` or empty column sums to `0`). -/
def sumNums (l : List CellVal) : ℚ :=
  l.foldl (fun acc c => match toNum c with | some q => acc + q | none => acc) 0

/-- First field of a row (`row.iloc[0]`; absent when the row is empty). -/
def firstField (r : List CellVal) : CellVal :=
  r.headD CellVal.absent

/-- Embeds `excel_utils.is_skip_row`: empty first cell, or first cell matching a
"% change" variant. -/
def is_skip_row (r : List CellVal) : Bool :=
  match firstField r with
  | CellVal.absent => true
  | v =>
      let s := strLower (strTrim (pyStr v))
      strContains s "% change" || strContains s "%change"

/-- The Total-row test used by the metrics engine: first field present and
containing "total" (`metrics_calculator_agent.py`, no "visits" exclusion
here). -/
def isTotalCell (v : CellVal) : Bool :=
  match v with
  | CellVal.absent => false
  | _ => strContains (strLower (pyStr v)) "total"

/-- Row classified as Total by the metrics engine. -/
def isTotalRowM (r : List CellVal) : Bool :=
  isTotalCell (firstField r)

/-- Header-text match for one year role
(`MetricsCalculatorAgent.identify_year_columns`): "year-YYYY" or
"year YYYY" as substring, or the label ending in "YYYY". -/
def matchYearRole (col : String) (y : String) : Bool :=
  let c := strLower col
  strContains c ("year-" ++ y) || strContains c ("year " ++ y) || strEndsWith c y

/-- Update a role map: an existing key keeps its position and takes the new
column (Python dict assignment); a new key is appended. -/
def addRole (m : List (String × String)) (k v : String) : List (String × String) :=
  if m.any (fun p => p.1 == k) then
    m.map fun p => if p.1 == k then (k, v) else p
  else m ++ [(k, v)]

/-- Embeds `MetricsCalculatorAgent.identify_year_columns`: role map of year to column
label}; per column the 2023 pattern is tried first, then 2024, then 2025
(elif chain), and a later matching column overwrites the role. -/
def identify_year_columns (cols : List String) : List (String × String) :=
  cols.foldl
    (fun m col =>
      if matchYearRole col "2023" then addRole m "2023" col
      else if matchYearRole col "2024" then addRole m "2024" col
      else if matchYearRole col "2025" then addRole m "2025" col
      else m)
    []

/-- Role lookup in the map produced by `identify_year_columns`. -/
def rolesLookup (m : List (String × String)) (y : String) : Option String :=
  (m.find? fun p => p.1 == y).map Prod.snd

/-- The scan of `excel_utils.is_section_empty` over the resolved column
labels: the last label containing "2024" and (elif) the last containing
"2025". -/
def findCols2425 (vals : List String) : Option String × Option String :=
  vals.foldl
    (fun p col =>
      let c := strLower col
      if strContains c "2024" then (some col, p.2)
      else if strContains c "2025" then (p.1, some col)
      else p)
    (none, none)

/-- A row counted as valid by `is_section_empty`: numeric 2024 value `> 0`
and numeric 2025 value present. -/
def validRow (df : DataFrame) (c24 c25 : String) (r : List CellVal) : Bool :=
  match toNumAt df r c24, toNumAt df r c25 with
  | some a, some _ => decide (0 < a)
  | _, _ => false

/-- Embeds `excel_utils.is_section_empty`: true unless both year columns are found
among `vals` (and present in the frame) and some row is valid. -/
def is_section_empty (df : DataFrame) (vals : List String) : Bool :=
  match findCols2425 vals with
  | (some c24, some c25) =>
      if df.columns.contains c24 && df.columns.contains c25 then
        !(df.rows.any (validRow df c24 c25))
      else true
  | _ => true

/-- The fold of the YOY loop: one output cell per row, threading each row's
pre-existing metric cell (kept for skip rows). -/
def passMap (f : List CellVal → CellVal → CellVal) :
    List (List CellVal) → List CellVal → List CellVal
  | r :: rs, i :: is' => f r i :: passMap f rs is'
  | _, _ => []

/-- Per-row YOY assignment (`calculate_metrics`, YOY loop): skip rows keep
their pre-existing cell, Total rows are forced to absence, other rows get
the guarded YOY percentage of the coerced year cells. -/
def yoyRowStep (df : DataFrame) (c24 c25 : String) (r : List CellVal)
    (init : CellVal) : CellVal :=
  if is_skip_row r then init
  else if isTotalRowM r then CellVal.absent
  else cellOfOpt (calculate_yoy_percentage (toNumAt df r c24) (toNumAt df r c25))

/-- The December-of-2024 seed for January's LM (`calculate_metrics`): the
2024-column value of the first non-skip row whose first field contains
"december", when a 2024 role resolved. -/
def decemberVal (df : DataFrame) (c24? : Option String) : Option ℚ :=
  match c24? with
  | some c24 =>
      (df.rows.find? fun r =>
          !is_skip_row r &&
            (match firstField r with
             | CellVal.absent => false
             | v => strContains (strLower (pyStr v)) "december")).bind
        fun r => toNumAt df r c24
  | none => none

/-- The LM loop (`calculate_metrics`): running previous value `prev` and
first-month flag `fm` over (row, pre-existing cell) pairs.  Skip rows keep
their cell and leave the state; Total rows get absence and leave the state;
the first other row compares with the December seed, later ones with the
running previous 2025 value.  (`None` and `NaN` previous values coincide in
the model; both make the guarded percentage absent, as in the source.) -/
def lmGo (df : DataFrame) (c25 : String) (dec : Option ℚ) :
    Option ℚ → Bool → List (List CellVal × CellVal) → List CellVal
  | _, _, [] => []
  | prev, fm, (r, init) :: rest =>
      if is_skip_row r then init :: lmGo df c25 dec prev fm rest
      else if isTotalRowM r then CellVal.absent :: lmGo df c25 dec prev fm rest
      else
        let cur := toNumAt df r c25
        if fm then
          (match dec with
           | some d => cellOfOpt (calculate_lm_percentage cur (some d))
           | none => CellVal.absent) :: lmGo df c25 dec cur false rest
        else
          cellOfOpt (calculate_lm_percentage cur prev) :: lmGo df c25 dec cur false rest

/-- The pre-existing YOY / LM columns (`calculate_metrics`: the last column
whose lowered label has "yoy", "2024" and "2025" takes the YOY slot; elif,
the last with "lm" and "2025" takes the LM slot). -/
def findYoyLmCols (cols : List String) : Option String × Option String :=
  cols.foldl
    (fun p col =>
      let c := strLower col
      if strContains c "yoy" && strContains c "2024" && strContains c "2025" then
        (some col, p.2)
      else if strContains c "lm" && strContains c "2025" then (p.1, some col)
      else p)
    (none, none)

/-- Initial YOY column: the pre-existing matching column's values, else a
freshly created all-absent column. -/
def yoyInitOf (df : DataFrame) : List CellVal :=
  match (findYoyLmCols df.columns).1 with
  | some c => columnVals df c
  | none => df.rows.map fun _ => CellVal.absent

/-- Initial LM column, as `yoyInitOf`. -/
def lmInitOf (df : DataFrame) : List CellVal :=
  match (findYoyLmCols df.columns).2 with
  | some c => columnVals df c
  | none => df.rows.map fun _ => CellVal.absent

/-- The YOY pass: runs only when both the 2024 and the 2025 roles resolved,
else the initial column is left as is. -/
def metricsYoy (df : DataFrame) (roles : List (String × String))
    (init : List CellVal) : List CellVal :=
  match rolesLookup roles "2024", rolesLookup roles "2025" with
  | some c24, some c25 => passMap (yoyRowStep df c24 c25) df.rows init
  | _, _ => init

/-- The LM pass: runs only when the 2025 role resolved. -/
def metricsLm (df : DataFrame) (roles : List (String × String))
    (init : List CellVal) : List CellVal :=
  match rolesLookup roles "2025" with
  | some c25 =>
      lmGo df c25 (decemberVal df (rolesLookup roles "2024")) none true
        (df.rows.zip init)
  | none => init

/-- Embeds `MetricsCalculatorAgent.calculate_metrics`, restricted to its observable
outcome: the per-row YOY column and LM column it assigns.  An inactive
section (empty per `is_section_empty` over the resolved role columns) gets
fresh all-absent columns and no further computation. -/
def calculate_metrics (df : DataFrame) : List CellVal × List CellVal :=
  let roles := identify_year_columns df.columns
  if is_section_empty df (roles.map Prod.snd) then
    (df.rows.map fun _ => CellVal.absent, df.rows.map fun _ => CellVal.absent)
  else
    (metricsYoy df roles (yoyInitOf df), metricsLm df roles (lmInitOf df))

/-- The calendar month names (spec data model: a Month-row's first field is a
calendar month name). -/
def monthNames : List String :=
  ["January", "February", "March", "April", "May", "June",
   "July", "August", "September", "October", "November", "December"]

/-- Spec-side Month-row classification (first field is a calendar month
name).  Used only to state claims about Month-rows. -/
def isMonthRow (r : List CellVal) : Bool :=
  match firstField r with
  | CellVal.str s => monthNames.contains (strTrim s)
  | _ => false

/-- The 2025 value of the last non-Total row of a row prefix (`none` when the
prefix holds no non-Total row).  Reference function for the LM chaining rule:
row `i` of the LM pass compares against `lastMonthVal` of the rows before it,
and against the December seed when that is `none`. -/
def lastMonthVal (df : DataFrame) (c25 : String) : List (List CellVal) → Option (Option ℚ)
  | [] => none
  | r :: rs =>
      match lastMonthVal df c25 rs with
      | some v => some v
      | none => if isTotalRowM r then none else some (toNumAt df r c25)

/-- Section whose Month-rows all have a zero 2024 value while the Total row
carries positive numbers: the inactivity guard scans every row, so the
section counts as active. -/
def dfC2 : DataFrame :=
  ⟨["Month", "Year-2024", "Year-2025"],
   [[CellVal.str "January", CellVal.num 0, CellVal.num 10],
    [CellVal.str "February", CellVal.num 0, CellVal.num 20],
    [CellVal.str "Total", CellVal.num 5, CellVal.num 30]]⟩

/-- Section with a single resolvable year column. -/
def dfC2w : DataFrame :=
  ⟨["Month", "Year-2024"], [[CellVal.str "January", CellVal.num 3]]⟩

/-- Section whose first Month-row is February and whose January row comes
second, with a December row carrying a 2024 value. -/
def dfC3 : DataFrame :=
  ⟨["Month", "Year-2024", "Year-2025"],
   [[CellVal.str "February", CellVal.num 100, CellVal.num 200],
    [CellVal.str "January", CellVal.num 100, CellVal.num 300],
    [CellVal.str "December", CellVal.num 50, CellVal.num 400]]⟩

/-- An ordinary section: January, February, Total. -/
def dfW3 : DataFrame :=
  ⟨["Month", "Year-2024", "Year-2025"],
   [[CellVal.str "January", CellVal.num 50, CellVal.num 100],
    [CellVal.str "February", CellVal.num 10, CellVal.num 150],
    [CellVal.str "Total", CellVal.num 60, CellVal.num 250]]⟩

/-- Section where the 2025 role does not resolve (the 2023-role column merely
contains "2025" in its label) while the emptiness scan still finds a
"2024"/"2025" column pair, and the pre-existing YOY/LM columns carry stale
values on the Total row. -/
def dfC5 : DataFrame :=
  ⟨["Month", "Year-2024", "year-2023 proj 2025", "YOY % (2024-2025)", "LM % (2025)"],
   [[CellVal.str "January", CellVal.num 5, CellVal.num 7, CellVal.absent, CellVal.absent],
    [CellVal.str "Total", CellVal.num 9, CellVal.num 9, CellVal.num 50, CellVal.num 60]]⟩

/-- An ordinary two-row section with a Total row. -/
def dfW5 : DataFrame :=
  ⟨["Month", "Year-2024", "Year-2025"],
   [[CellVal.str "January", CellVal.num 5, CellVal.num 6],
    [CellVal.str "Total", CellVal.num 5, CellVal.num 6]]⟩

/-! ### The grid and the writer -/

/-- An openpyxl worksheet: a total function from 1-indexed (row, column) to
cells. -/
structure Grid where
  cell : Nat → Nat → CellVal

/-- Write one cell. -/
def writeCell (g : Grid) (r c : Nat) (v : CellVal) : Grid :=
  ⟨fun r' c' => if r' = r ∧ c' = c then v else g.cell r' c'⟩

/-- Section coordinates (the `section_info` dictionary). -/
structure SectionInfo where
  header_row : Nat
  data_start_row : Nat
  data_end_row : Nat
deriving DecidableEq, Repr

/-- The row range `range(data_start_row, data_end_row + 1)`. -/
def rowRange (si : SectionInfo) : List Nat :=
  List.range' si.data_start_row (si.data_end_row + 1 - si.data_start_row)

/-- Classification of a column-B cell by the writer's Total / %Change scans:
`some true` = Total row, `some false` = %Change row; only non-empty text
cells classify, and the Total test wins. -/
def rowClass (v : CellVal) : Option Bool :=
  match v with
  | CellVal.str s =>
      if s = "" then none
      else
        let l := strLower s
        if strContains l "total" && !strContains l "visits" then some true
        else if strContains l "% change" || strContains l "%change" then some false
        else none
  | _ => none

/-- Embeds `write_percent_change_row`'s scan locating the Total and %Change rows within the
section range (the last match wins for each). -/
def detectRows (g : Grid) (si : SectionInfo) : Option Nat × Option Nat :=
  (rowRange si).foldl
    (fun p r =>
      match rowClass (g.cell r 2) with
      | some true => (some r, p.2)
      | some false => (p.1, some r)
      | none => p)
    (none, none)

/-- Embeds `write_percent_change_row` STEP 1: clear columns 2–19 of the %Change
row, then write the "% Change" label into column 2. -/
def clearLabel (g : Grid) (cr : Nat) : Grid :=
  writeCell ((List.range' 2 18).foldl (fun a c => writeCell a cr c CellVal.absent) g)
    cr 2 (CellVal.str "% Change")

/-- STEP 2's header classification: a truthy header cell not mentioning
yoy / lm / % change, classified by the first matching year substring. -/
def classifyYearHeader (v : CellVal) : Option String :=
  if truthy v then
    let h := strLower (pyStr v)
    if !strContains h "yoy" && !strContains h "lm" && !strContains h "% change" then
      if strContains h "2023" then some "2023"
      else if strContains h "2024" then some "2024"
      else if strContains h "2025" then some "2025"
      else none
    else none
  else none

/-- STEP 2: the physical year columns among header columns 3–19. -/
def collectYearCols (g : Grid) (hr : Nat) : List (Nat × String) :=
  (List.range' 3 17).filterMap fun col =>
    (classifyYearHeader (g.cell hr col)).map fun y => (col, y)

/-- Embeds `year_columns.sort(key=year)`: a stable sort by the year label, i.e. the
2023 entries followed by the 2024 ones and then the 2025 ones (the labels
produced by `classifyYearHeader` can take no other value). -/
def sortYearCols (l : List (Nat × String)) : List (Nat × String) :=
  l.filter (fun p => p.2 == "2023") ++ l.filter (fun p => p.2 == "2024") ++
    l.filter (fun p => p.2 == "2025")

/-- Last-wins association lookup (a Python dict built by repeated
assignment). -/
def assocLast (l : List (String × ℚ)) (k : String) : Option ℚ :=
  ((l.filter fun p => p.1 == k).getLast?).map Prod.snd

/-- The number of distinct keys (`len` of the Python dict). -/
def keysCount (l : List (String × ℚ)) : Nat :=
  (l.map Prod.fst).dedup.length

/-- STEP 4: the Total value of one year column — the formula-resolved
snapshot cell when available (a number; text fails the `float` conversion
and absence stays missing), else the sum of the first matching Table
column. -/
def totalValue (wsD : Option Grid) (df : DataFrame) (tr col : Nat) (y : String) :
    Option ℚ :=
  let fromSheet : Option ℚ :=
    match wsD with
    | some gd => toNum (gd.cell tr col)
    | none => none
  match fromSheet with
  | some q => some q
  | none =>
      (df.columns.find? fun c =>
          strContains (strLower c) y && !strContains (strLower c) "yoy" &&
            !strContains (strLower c) "lm").map
        fun c => sumNums (columnVals df c)

/-- The first-eight-months substrings of STEP 4. -/
def janAugMonths : List String :=
  ["jan", "feb", "march", "april", "may", "june", "july", "aug"]

/-- STEP 4: the Jan–Aug sum of one year column over the rows between the
data start and the Total row whose month cell is non-empty text containing a
first-eight-months substring; values come from the snapshot when available,
else from the (already cleared) worksheet; absence adds nothing and text
fails the `float` conversion and is skipped. -/
def janAugSum (g2 : Grid) (wsD : Option Grid) (si : SectionInfo) (tr col : Nat) : ℚ :=
  (List.range' si.data_start_row (tr - si.data_start_row)).foldl
    (fun acc r =>
      match g2.cell r 2 with
      | CellVal.str s =>
          if s ≠ "" && janAugMonths.any (fun m => strContains (strLower (strTrim s)) m) then
            match (match wsD with | some gd => gd.cell r col | none => g2.cell r col) with
            | CellVal.num q => acc + q
            | _ => acc
          else acc
      | _ => acc)
    0

/-- STEP 4 over all year columns: the accepted (`> 0`) Total values keyed by
year, in column order (`assocLast` models the dict's last-wins updates). -/
def totalsList (wsD : Option Grid) (df : DataFrame) (tr : Nat)
    (cols : List (Nat × String)) : List (String × ℚ) :=
  cols.filterMap fun p =>
    (totalValue wsD df tr p.1 p.2).bind fun q =>
      if 0 < q then some (p.2, q) else none

/-- STEP 4 over all year columns: the accepted (`> 0`) Jan–Aug sums. -/
def janAugList (g2 : Grid) (wsD : Option Grid) (si : SectionInfo) (tr : Nat)
    (cols : List (Nat × String)) : List (String × ℚ) :=
  cols.filterMap fun p =>
    let s := janAugSum g2 wsD si tr p.1
    if 0 < s then some (p.2, s) else none

/-- STEP 5, one year column's write: the reference year is skipped; the 2025
column, when a 2024 Jan–Aug sum was accepted, gets the Jan–Aug comparison
annotated "(till Aug)" if its own Jan–Aug sum was accepted and nothing
otherwise; every other year gets the Total-vs-reference percentage when its
Total was accepted. -/
def writeStepVal (totals janAug : List (String × ℚ)) (y0 : String) (rt : ℚ)
    (p : Nat × String) : Option CellVal :=
  if p.2 == y0 then none
  else if p.2 == "2025" && (assocLast janAug "2024").isSome then
    match assocLast janAug "2024", assocLast janAug "2025" with
    | some p24, some cur =>
        if 0 < p24 then
          some (CellVal.str (fmtFixed2 ((cur - p24) / p24 * 100) ++ "% (till Aug)"))
        else none
    | _, _ => none
  else
    match assocLast totals p.2 with
    | some ct =>
        some (CellVal.str (format_percentage_for_excel (some ((ct - rt) / rt * 100))))
    | none => none

/-- STEP 5: fold the per-column writes into the %Change row. -/
def writeChanges (g2 : Grid) (cr : Nat) (totals janAug : List (String × ℚ))
    (y0 : String) (rt : ℚ) (cols : List (Nat × String)) : Grid :=
  cols.foldl
    (fun acc p =>
      match writeStepVal totals janAug y0 rt p with
      | some v => writeCell acc cr p.1 v
      | none => acc)
    g2

/-- Body of `ExcelWriterAgent.write_percent_change_row` after the Total / %Change
rows were located: clear + label, collect and sort the year columns, accept
totals and Jan–Aug sums, pick the first (lowest) year as reference, write. -/
def wpcrBody (g2 : Grid) (df : DataFrame) (si : SectionInfo) (wsD : Option Grid)
    (tr cr : Nat) : Grid :=
  let sorted := sortYearCols (collectYearCols g2 si.header_row)
  if sorted.length < 2 then g2
  else
    let totals := totalsList wsD df tr sorted
    let janAug := janAugList g2 wsD si tr sorted
    if keysCount totals < 2 then g2
    else
      match sorted with
      | [] => g2
      | (_, y0) :: _ =>
          match assocLast totals y0 with
          | none => g2
          | some rt =>
              if rt ≤ 0 then g2 else writeChanges g2 cr totals janAug y0 rt sorted

/-- Embeds `ExcelWriterAgent.write_percent_change_row` (the snapshot workbook of
STEP 3 is the optional `wsD` grid; a failed load is `none`). -/
def write_percent_change_row (g : Grid) (df : DataFrame) (si : SectionInfo)
    (wsD : Option Grid) : Grid :=
  match detectRows g si with
  | (some tr, some cr) => wpcrBody (clearLabel g cr) df si wsD tr cr
  | _ => g

/-- Embeds `write_total_row`'s Total-row search: the first row (`break`) whose
column-B cell is non-empty text containing "total" but not "visits". -/
def findTotalRowIdx (g : Grid) (si : SectionInfo) : Option Nat :=
  (rowRange si).find? fun r => rowClass (g.cell r 2) == some true

/-- One header column's Total write (`write_total_row`): a truthy header
mentioning "year" or a year digit group and not yoy / lm, matched by trimmed
text against a Table column, produces the rounded sum over the non-Total
rows unless that sum is zero. -/
def totalColWrite (df : DataFrame) (hv : CellVal) : Option CellVal :=
  if truthy hv then
    let h := strLower (pyStr hv)
    if (strContains h "year" || strContains h "2023" || strContains h "2024" ||
        strContains h "2025") && !strContains h "yoy" && !strContains h "lm" then
      match df.columns.find? (fun dc => strTrim (pyStr hv) == strTrim dc) with
      | some dc =>
          let rowsNT := df.rows.filter fun r =>
            !strContains (strLower (pyStr (firstField r))) "total"
          let s := sumNums (rowsNT.map fun r => cellAt df r dc)
          if s ≠ 0 then some (CellVal.num ((roundHalfEven s : ℤ) : ℚ)) else none
      | none => none
    else none
  else none

/-- Embeds `ExcelWriterAgent.write_total_row`. -/
def write_total_row (g : Grid) (df : DataFrame) (si : SectionInfo) : Grid :=
  match findTotalRowIdx g si with
  | none => g
  | some tr =>
      (List.range' 3 17).foldl
        (fun acc col =>
          match totalColWrite df (acc.cell si.header_row col) with
          | some v => writeCell acc tr col v
          | none => acc)
        g

/-- The metric write loop of `write_metrics_to_excel`, one metric column:
row `i`'s value is written as percentage text at grid row `ds + i` when it
is numeric; absence writes nothing.  (A non-numeric text value would raise
in the source's float formatting; the model leaves the cell alone.) -/
def writeVals (ds c : Nat) : Grid → Nat → List CellVal → Grid
  | g, _, [] => g
  | g, i, v :: vs =>
      let g' := match v with
        | CellVal.num q =>
            writeCell g (ds + i) c (CellVal.str (format_percentage_for_excel (some q)))
        | _ => g
      writeVals ds c g' (i + 1) vs

/-- The per-row YOY / LM writes of `write_metrics_to_excel`: each metric is
written only when both its Table column and its grid column resolved (the
`Option` packs the resolved grid column index with the Table column's
values); the source's row-interleaved order touches the same cells. -/
def write_metrics_cells (g : Grid) (ds : Nat)
    (yoy lm : Option (Nat × List CellVal)) : Grid :=
  let g1 := match yoy with
    | some (c, vs) => writeVals ds c g 0 vs
    | none => g
  match lm with
  | some (c, vs) => writeVals ds c g1 0 vs
  | none => g1

/-! ### Extraction -/

/-- Embeds `extract_section_data`'s header labels: trimmed text of the truthy header
cells of columns 2 … `maxCol`, else the `Column_<index>` placeholder. -/
def headerLabels (g : Grid) (maxCol : Nat) (hr : Nat) : List String :=
  (List.range' 2 (maxCol - 1)).map fun c =>
    let v := g.cell hr c
    if truthy v then strTrim (pyStr v) else "Column_" ++ toString c

/-- The row collector of `extract_section_data`: stop (`break`) at the first
row with no truthy cell; keep a row only when its first read cell is
truthy. -/
def collectRows : List (List CellVal) → List (List CellVal)
  | [] => []
  | r :: rs =>
      if !(r.any truthy) then []
      else if truthy (firstField r) then r :: collectRows rs
      else collectRows rs

/-- Embeds `SectionDetectorAgent.extract_section_data`: read the section range over
the header-wide column window, stop at the first all-falsy row, retain rows
with a truthy first cell, drop "% change" rows and all-absent rows, and
re-index from 0 (the final list order; the row width always equals the
header width, so the column-list truncation of the source is the
identity). -/
def extract_section_data (g : Grid) (maxCol : Nat) (si : SectionInfo) : DataFrame :=
  let headers := headerLabels g maxCol si.header_row
  let raw := (rowRange si).map fun r => (List.range' 2 headers.length).map (g.cell r)
  let rows1 := collectRows raw
  let mIdx := (headers.findIdx? (· == "Month")).getD 0
  let rows2 := rows1.filter fun r =>
    let s := strLower (pyStr (r.getD mIdx CellVal.absent))
    !(strContains s "% change" || strContains s "%change")
  let rows3 := rows2.filter fun r => r.any fun c => !(c == CellVal.absent)
  ⟨headers, rows3⟩

/-! ### Concrete grids for the writer claims -/

/-- Build a grid from a finite cell association list (all other cells
absent). -/
def gridOf (l : List (Nat × Nat × CellVal)) : Grid :=
  ⟨fun r c =>
    (((l.find? fun p => p.1 == r && p.2.1 == c).map fun p => p.2.2).getD
      CellVal.absent)⟩

/-- Section with year columns 2023 and 2024 only, Jan–Aug data present for
both years. -/
def gC4 : Grid :=
  gridOf
    [(10, 2, CellVal.str "Month"), (10, 3, CellVal.str "Year-2023"),
     (10, 4, CellVal.str "Year-2024"),
     (11, 2, CellVal.str "January"), (11, 3, CellVal.num 10), (11, 4, CellVal.num 20),
     (12, 2, CellVal.str "September"), (12, 3, CellVal.num 10), (12, 4, CellVal.num 40),
     (13, 2, CellVal.str "Total"),
     (14, 2, CellVal.str "% Change")]

/-- The Table extracted for `gC4`. -/
def dfC4 : DataFrame :=
  ⟨["Month", "Year-2023", "Year-2024"],
   [[CellVal.str "January", CellVal.num 10, CellVal.num 20],
    [CellVal.str "September", CellVal.num 10, CellVal.num 40]]⟩

/-- The section coordinates for `gC4`. -/
def siC4 : SectionInfo := ⟨10, 11, 14⟩

/-- Section with a single year column, a Total row, and a stale value inside
the %Change row. -/
def gC6 : Grid :=
  gridOf
    [(10, 2, CellVal.str "Month"), (10, 3, CellVal.str "Year-2024"),
     (11, 2, CellVal.str "January"), (11, 3, CellVal.num 5),
     (12, 2, CellVal.str "Total"),
     (13, 2, CellVal.str "% Change"), (13, 4, CellVal.num 99)]

/-- The Table extracted for `gC6`. -/
def dfC6 : DataFrame :=
  ⟨["Month", "Year-2024"],
   [[CellVal.str "January", CellVal.num 5],
    [CellVal.str "Total", CellVal.num 5]]⟩

/-- The section coordinates for `gC6`. -/
def siC6 : SectionInfo := ⟨10, 11, 13⟩

/-- Grid with a data row (row 12) left fully blank between two month rows. -/
def gC8 : Grid :=
  gridOf
    [(10, 2, CellVal.str "Month"), (10, 3, CellVal.str "Year-2024"),
     (11, 2, CellVal.str "January"), (11, 3, CellVal.num 1),
     (13, 2, CellVal.str "February"), (13, 3, CellVal.num 2)]

/-- The section coordinates for `gC8`. -/
def siC8 : SectionInfo := ⟨10, 11, 13⟩

/-- The all-absent grid. -/
def gEmpty : Grid := ⟨fun _ _ => CellVal.absent⟩

/-! ## Supporting lemmas -/

theorem length_yoyInitOf (df : DataFrame) : (yoyInitOf df).length = df.rows.length := by
  unfold yoyInitOf
  cases (findYoyLmCols df.columns).1 <;> simp [columnVals]

theorem length_lmInitOf (df : DataFrame) : (lmInitOf df).length = df.rows.length := by
  unfold lmInitOf
  cases (findYoyLmCols df.columns).2 <;> simp [columnVals]

theorem passMap_getElem?_absent (f : List CellVal → CellVal → CellVal) :
    ∀ (rows : List (List CellVal)) (init : List CellVal) (i : ℕ) (r : List CellVal),
      rows[i]? = some r → init.length = rows.length →
      (∀ x, f r x = CellVal.absent) →
      (passMap f rows init)[i]? = some CellVal.absent := by
  intro rows
  induction rows with
  | nil => intro init i r h; simp at h
  | cons r0 rs ih =>
    intro init i r h hlen hval
    cases init with
    | nil => simp at hlen
    | cons i0 is' =>
      cases i with
      | zero =>
        simp only [List.getElem?_cons_zero, Option.some.injEq] at h
        subst h
        simp [passMap, hval]
      | succ j =>
        simp only [List.getElem?_cons_succ] at h
        simpa [passMap] using ih is' j r h (by simpa using hlen) hval

theorem lmGo_getElem?_total (df : DataFrame) (c25 : String) (dec : Option ℚ) :
    ∀ (rows : List (List CellVal)) (init : List CellVal) (i : ℕ) (r : List CellVal)
      (prev : Option ℚ) (fm : Bool),
      rows[i]? = some r → init.length = rows.length →
      is_skip_row r = false → isTotalRowM r = true →
      (lmGo df c25 dec prev fm (rows.zip init))[i]? = some CellVal.absent := by
  intro rows
  induction rows with
  | nil => intro init i r prev fm h; simp at h
  | cons r0 rs ih =>
    intro init i r prev fm h hlen hskip htot
    cases init with
    | nil => simp at hlen
    | cons i0 is' =>
      have hlen' : is'.length = rs.length := by simpa using hlen
      cases i with
      | zero =>
        simp only [List.getElem?_cons_zero, Option.some.injEq] at h
        subst h
        simp [lmGo, hskip, htot]
      | succ j =>
        simp only [List.getElem?_cons_succ] at h
        by_cases hs0 : is_skip_row r0 = true
        · simpa [lmGo, hs0] using ih is' j r prev fm h hlen' hskip htot
        · have hs0' : is_skip_row r0 = false := by simpa using hs0
          by_cases ht0 : isTotalRowM r0 = true
          · simpa [lmGo, hs0', ht0] using ih is' j r prev fm h hlen' hskip htot
          · have ht0' : isTotalRowM r0 = false := by simpa using ht0
            cases fm <;>
              simpa [lmGo, hs0', ht0'] using
                ih is' j r (toNumAt df r0 c25) false h hlen' hskip htot

theorem lastMonthVal_cons_total (df : DataFrame) (c25 : String) (r0 : List CellVal)
    (l : List (List CellVal)) (h : isTotalRowM r0 = true) :
    lastMonthVal df c25 (r0 :: l) = lastMonthVal df c25 l := by
  simp only [lastMonthVal, h, if_true]
  cases lastMonthVal df c25 l <;> rfl

theorem lastMonthVal_cons_nontotal (df : DataFrame) (c25 : String) (r0 : List CellVal)
    (l : List (List CellVal)) (h : isTotalRowM r0 = false) :
    lastMonthVal df c25 (r0 :: l) =
      some ((lastMonthVal df c25 l).getD (toNumAt df r0 c25)) := by
  cases hl : lastMonthVal df c25 l <;> simp [lastMonthVal, h, hl]

theorem lmGo_getElem?_false (df : DataFrame) (c25 : String) (dec : Option ℚ) :
    ∀ (rows : List (List CellVal)) (init : List CellVal) (i : ℕ) (r : List CellVal)
      (prev : Option ℚ),
      rows[i]? = some r → init.length = rows.length →
      (∀ x ∈ rows, is_skip_row x = false) →
      (lmGo df c25 dec prev false (rows.zip init))[i]? =
        some (if isTotalRowM r then CellVal.absent
          else
            match lastMonthVal df c25 (rows.take i) with
            | none => cellOfOpt (calculate_lm_percentage (toNumAt df r c25) prev)
            | some pv => cellOfOpt (calculate_lm_percentage (toNumAt df r c25) pv)) := by
  intro rows
  induction rows with
  | nil => intro init i r prev h; simp at h
  | cons r0 rs ih =>
    intro init i r prev h hlen hns
    cases init with
    | nil => simp at hlen
    | cons i0 is' =>
      have hns0 : is_skip_row r0 = false := hns r0 (by simp)
      have hnsr : ∀ x ∈ rs, is_skip_row x = false := fun x hx => hns x (by simp [hx])
      have hlen' : is'.length = rs.length := by simpa using hlen
      by_cases ht0 : isTotalRowM r0 = true
      · cases i with
        | zero =>
          simp only [List.getElem?_cons_zero, Option.some.injEq] at h
          subst h
          simp [lmGo, hns0, ht0]
        | succ j =>
          simp only [List.getElem?_cons_succ] at h
          have hrec := ih is' j r prev h hlen' hnsr
          simp only [List.zip_cons_cons, lmGo, hns0, Bool.false_eq_true, if_false, ht0,
            if_true, List.getElem?_cons_succ, List.take_succ_cons,
            lastMonthVal_cons_total df c25 r0 _ ht0]
          exact hrec
      · have ht0' : isTotalRowM r0 = false := by simpa using ht0
        cases i with
        | zero =>
          simp only [List.getElem?_cons_zero, Option.some.injEq] at h
          subst h
          simp [lmGo, hns0, ht0', lastMonthVal]
        | succ j =>
          simp only [List.getElem?_cons_succ] at h
          have hrec := ih is' j r (toNumAt df r0 c25) h hlen' hnsr
          simp only [List.zip_cons_cons, lmGo, hns0, Bool.false_eq_true, if_false, ht0',
            List.getElem?_cons_succ, List.take_succ_cons,
            lastMonthVal_cons_nontotal df c25 r0 _ ht0']
          cases hlm : lastMonthVal df c25 (rs.take j) <;>
            simpa [hlm] using hrec

theorem lmGo_getElem?_true (df : DataFrame) (c25 : String) (dec : Option ℚ) :
    ∀ (rows : List (List CellVal)) (init : List CellVal) (i : ℕ) (r : List CellVal),
      rows[i]? = some r → init.length = rows.length →
      (∀ x ∈ rows, is_skip_row x = false) →
      (lmGo df c25 dec none true (rows.zip init))[i]? =
        some (if isTotalRowM r then CellVal.absent
          else
            match lastMonthVal df c25 (rows.take i) with
            | none =>
                match dec with
                | some d => cellOfOpt (calculate_lm_percentage (toNumAt df r c25) (some d))
                | none => CellVal.absent
            | some pv => cellOfOpt (calculate_lm_percentage (toNumAt df r c25) pv)) := by
  intro rows
  induction rows with
  | nil => intro init i r h; simp at h
  | cons r0 rs ih =>
    intro init i r h hlen hns
    cases init with
    | nil => simp at hlen
    | cons i0 is' =>
      have hns0 : is_skip_row r0 = false := hns r0 (by simp)
      have hnsr : ∀ x ∈ rs, is_skip_row x = false := fun x hx => hns x (by simp [hx])
      have hlen' : is'.length = rs.length := by simpa using hlen
      by_cases ht0 : isTotalRowM r0 = true
      · cases i with
        | zero =>
          simp only [List.getElem?_cons_zero, Option.some.injEq] at h
          subst h
          simp [lmGo, hns0, ht0]
        | succ j =>
          simp only [List.getElem?_cons_succ] at h
          have hrec := ih is' j r h hlen' hnsr
          simp only [List.zip_cons_cons, lmGo, hns0, Bool.false_eq_true, if_false, ht0,
            if_true, List.getElem?_cons_succ, List.take_succ_cons,
            lastMonthVal_cons_total df c25 r0 _ ht0]
          exact hrec
      · have ht0' : isTotalRowM r0 = false := by simpa using ht0
        cases i with
        | zero =>
          simp only [List.getElem?_cons_zero, Option.some.injEq] at h
          subst h
          simp [lmGo, hns0, ht0', lastMonthVal]
        | succ j =>
          simp only [List.getElem?_cons_succ] at h
          have hrec := lmGo_getElem?_false df c25 dec rs is' j r (toNumAt df r0 c25) h hlen' hnsr
          simp only [List.zip_cons_cons, lmGo, hns0, Bool.false_eq_true, if_false, ht0',
            if_true, List.getElem?_cons_succ, List.take_succ_cons,
            lastMonthVal_cons_nontotal df c25 r0 _ ht0']
          cases hlm : lastMonthVal df c25 (rs.take j) <;>
            simpa [hlm] using hrec

theorem findCols2425_short (l : List String) (h : l.length ≤ 1) :
    (findCols2425 l).1 = none ∨ (findCols2425 l).2 = none := by
  rcases l with _ | ⟨x, _ | ⟨y, t⟩⟩
  · left; rfl
  · by_cases h1 : strContains (strLower x) "2024" = true
    · right; simp [findCols2425, h1]
    · left
      by_cases h2 : strContains (strLower x) "2025" = true
      · simp [findCols2425, h1, h2]
      · simp [findCols2425, h1, h2]
  · simp [List.length_cons] at h

/-! ## Claim theorems -/

/-- Claim C1: for every pair of coerced year values, the per-row YOY result
is absence when the 2024 value is missing/non-numeric, when it is `≤ 0`
(including exactly `0`), or when the 2025 value is missing/non-numeric;
otherwise it is exactly `round(((v2025 − v2024)/v2024)·100, 2)` (finite by
construction over `ℚ`). -/
theorem C1_yoy_rule (v24 v25 : Option ℚ) :
    calculate_yoy_percentage v24 v25 =
      match v24, v25 with
      | some a, some b => if 0 < a then some (roundTo2 ((b - a) / a * 100)) else none
      | _, _ => none := by
  cases v24 with
  | none => rfl
  | some a =>
    cases v25 with
    | none => rfl
    | some b =>
      simp only [calculate_yoy_percentage, safe_percentage_calculation]
      by_cases h : 0 < a
      · rw [if_neg (not_le.mpr h), if_neg (ne_of_gt h), if_pos h]
      · rw [if_pos (not_lt.mp h), if_neg h]

/-- Claim C2, counterexample: in `dfC2` the roles resolve to the genuine year
columns, no Month-row has a positive 2024 value, yet the Table is treated as
active (the Total row passes the guard) and February's LM is computed as
`100`, not absence. -/
theorem C2_counterexample :
    findCols2425 ((identify_year_columns dfC2.columns).map Prod.snd) =
        (some "Year-2024", some "Year-2025")
    ∧ (∀ r ∈ dfC2.rows, isMonthRow r = true →
        validRow dfC2 "Year-2024" "Year-2025" r = false)
    ∧ (calculate_metrics dfC2).2[1]? = some (CellVal.num 100)
    ∧ CellVal.num 100 ≠ CellVal.absent := by
  refine ⟨by decide, by decide, by decide, by decide⟩

/-- Shared inactive-marking argument: a short role map or universally
invalid rows force `is_section_empty`, and the inactive branch yields fresh
all-absent metric columns. -/
theorem calcMetrics_inactive (df : DataFrame)
    (h : (identify_year_columns df.columns).length < 2 ∨
         ∀ r ∈ df.rows,
           (match findCols2425 ((identify_year_columns df.columns).map Prod.snd) with
            | (some c24, some c25) => validRow df c24 c25 r
            | _ => false) = false) :
    calculate_metrics df =
      (df.rows.map fun _ => CellVal.absent, df.rows.map fun _ => CellVal.absent) := by
  have hse : is_section_empty df ((identify_year_columns df.columns).map Prod.snd) = true := by
    rcases hfc : findCols2425 ((identify_year_columns df.columns).map Prod.snd) with ⟨c24?, c25?⟩
    rcases h with h | h
    · have hlen : ((identify_year_columns df.columns).map Prod.snd).length ≤ 1 := by
        rw [List.length_map]; omega
      have hshort := findCols2425_short _ hlen
      rw [hfc] at hshort
      rcases c24? with _ | c24
      · simp [is_section_empty, hfc]
      rcases c25? with _ | c25
      · simp [is_section_empty, hfc]
      rcases hshort with h' | h' <;> simp at h'
    · rcases c24? with _ | c24
      · simp [is_section_empty, hfc]
      rcases c25? with _ | c25
      · simp [is_section_empty, hfc]
      rw [hfc] at h
      simp only [is_section_empty, hfc]
      split_ifs with hc
      · simp only [Bool.not_eq_eq_eq_not, Bool.not_true]
        rw [List.any_eq_false]
        intro x hx
        simpa using h x hx
      · rfl
  simp [calculate_metrics, hse]

/-- Claim C2 (amended): if fewer than two year-column roles resolve, or no
row at all (Total-rows included, per the emptiness guard's own column
re-matching) has a numeric 2024 value `> 0` together with a present 2025
value, the Table is marked inactive: both metric columns become fresh
all-absent columns and no YOY/LM computation runs. -/
theorem C2_inactive_marking (df : DataFrame)
    (h : (identify_year_columns df.columns).length < 2 ∨
         ∀ r ∈ df.rows,
           (match findCols2425 ((identify_year_columns df.columns).map Prod.snd) with
            | (some c24, some c25) => validRow df c24 c25 r
            | _ => false) = false) :
    calculate_metrics df =
      (df.rows.map fun _ => CellVal.absent, df.rows.map fun _ => CellVal.absent) :=
  calcMetrics_inactive df h

/-- Claim C2 witness: a section with a single resolvable year column is
marked inactive. -/
theorem C2_inactive_marking_witness :
    calculate_metrics dfC2w = ([CellVal.absent], [CellVal.absent]) :=
  (C2_inactive_marking dfC2w (Or.inl (by decide))).trans (by decide)

/-- Claim C3, counterexample: in `dfC3` the first Month-row is February and
January sits second; the row labelled January gets LM `50` (chained to the
row before it), not the `500` that comparing its 2025 value against the
December row's 2024 value (`50`) would give — the December comparison went to
the positionally-first row instead. -/
theorem C3_counterexample :
    firstField (dfC3.rows.getD 1 []) = CellVal.str "January"
    ∧ (calculate_metrics dfC3).2[1]? = some (CellVal.num 50)
    ∧ decemberVal dfC3 (rolesLookup (identify_year_columns dfC3.columns) "2024") = some 50
    ∧ cellOfOpt (calculate_lm_percentage
        (toNumAt dfC3 (dfC3.rows.getD 1 []) "Year-2025") (some 50)) = CellVal.num 500
    ∧ CellVal.num 50 ≠ CellVal.num 500 := by
  refine ⟨by decide, by decide, by decide, by decide, by decide⟩

/-- Claim C3 (amended): in the LM pass over a Table with a resolved 2025
column and no %Change rows, the positionally-first non-Total row (whatever
its label) compares its 2025 value against the 2024-column value of the
first row whose first field contains "december" (absence when that seed is
missing); every later non-Total row compares against the 2025 value of the
nearest preceding non-Total row; Total rows get absence and do not update
the running value. -/
theorem C3_lm_chain (df : DataFrame) (c25 : String)
    (h25 : rolesLookup (identify_year_columns df.columns) "2025" = some c25)
    (hne : is_section_empty df ((identify_year_columns df.columns).map Prod.snd) = false)
    (hns : ∀ x ∈ df.rows, is_skip_row x = false)
    (i : ℕ) (r : List CellVal) (hr : df.rows[i]? = some r) :
    (calculate_metrics df).2[i]? =
      some (if isTotalRowM r then CellVal.absent
        else
          match lastMonthVal df c25 (df.rows.take i) with
          | none =>
              match decemberVal df (rolesLookup (identify_year_columns df.columns) "2024") with
              | some d => cellOfOpt (calculate_lm_percentage (toNumAt df r c25) (some d))
              | none => CellVal.absent
          | some pv => cellOfOpt (calculate_lm_percentage (toNumAt df r c25) pv)) := by
  simp only [calculate_metrics, hne, Bool.false_eq_true, if_false]
  simp only [metricsLm, h25]
  exact lmGo_getElem?_true df c25 _ df.rows (lmInitOf df) i r hr (length_lmInitOf df) hns

/-- Claim C3 witness: in the ordinary section `dfW3`, February (row 1) is
chained to January's 2025 value: LM = 50. -/
theorem C3_lm_chain_witness :
    (calculate_metrics dfW3).2[1]? = some (CellVal.num 50) :=
  (C3_lm_chain dfW3 "Year-2025" (by decide) (by decide) (by decide) 1
      [CellVal.str "February", CellVal.num 10, CellVal.num 150] (by decide)).trans
    (by decide)

/-- Claim C5, counterexample: in `dfC5` the 2025 role does not resolve, so
neither metric pass runs, and the pre-existing YOY/LM columns' stale values
survive on the Total row: computed YOY = `50` and LM = `60`, not absence. -/
theorem C5_counterexample :
    isTotalRowM (dfC5.rows.getD 1 []) = true
    ∧ is_section_empty dfC5 ((identify_year_columns dfC5.columns).map Prod.snd) = false
    ∧ (calculate_metrics dfC5).1[1]? = some (CellVal.num 50)
    ∧ (calculate_metrics dfC5).2[1]? = some (CellVal.num 60)
    ∧ CellVal.num 50 ≠ CellVal.absent := by
  refine ⟨by decide, by decide, by decide, by decide, by decide⟩

/-- Claim C5 (amended): a non-%Change Total-row's computed YOY is absence
whenever the YOY pass runs (both the 2024 and the 2025 roles resolve) and its
computed LM is absence whenever the LM pass runs (the 2025 role resolves);
when the section is inactive both are absence as well (covered below because
the inactive branch yields all-absent columns regardless of the role
hypotheses). -/
theorem C5_total_rows_absent (df : DataFrame) (i : ℕ) (r : List CellVal)
    (hr : df.rows[i]? = some r) (hskip : is_skip_row r = false)
    (ht : isTotalRowM r = true) :
    (((rolesLookup (identify_year_columns df.columns) "2024").isSome = true ∧
      (rolesLookup (identify_year_columns df.columns) "2025").isSome = true) →
        (calculate_metrics df).1[i]? = some CellVal.absent)
    ∧ ((rolesLookup (identify_year_columns df.columns) "2025").isSome = true →
        (calculate_metrics df).2[i]? = some CellVal.absent) := by
  by_cases hse : is_section_empty df ((identify_year_columns df.columns).map Prod.snd) = true
  · have hlt : i < df.rows.length := (List.getElem?_eq_some_iff.mp hr).1
    constructor <;> intro _ <;>
      simp [calculate_metrics, hse, List.getElem?_map, hr, List.getElem?_replicate, hlt]
  · have hseF : is_section_empty df ((identify_year_columns df.columns).map Prod.snd) = false := by
      simpa using hse
    constructor
    · rintro ⟨h24, h25⟩
      obtain ⟨c24, hc24⟩ := Option.isSome_iff_exists.mp h24
      obtain ⟨c25, hc25⟩ := Option.isSome_iff_exists.mp h25
      simp only [calculate_metrics, hseF, Bool.false_eq_true, if_false]
      simp only [metricsYoy, hc24, hc25]
      refine passMap_getElem?_absent _ df.rows (yoyInitOf df) i r hr (length_yoyInitOf df) ?_
      intro x
      simp [yoyRowStep, hskip, ht]
    · intro h25
      obtain ⟨c25, hc25⟩ := Option.isSome_iff_exists.mp h25
      simp only [calculate_metrics, hseF, Bool.false_eq_true, if_false]
      simp only [metricsLm, hc25]
      exact lmGo_getElem?_total df c25 _ df.rows (lmInitOf df) i r none true hr
        (length_lmInitOf df) hskip ht

/-- Claim C5 witness: in `dfW5` both passes run and the Total row's metrics
are absence. -/
theorem C5_total_rows_absent_witness :
    (calculate_metrics dfW5).1[1]? = some CellVal.absent
    ∧ (calculate_metrics dfW5).2[1]? = some CellVal.absent := by
  have h := C5_total_rows_absent dfW5 1
    [CellVal.str "Total", CellVal.num 5, CellVal.num 6] (by decide) (by decide) (by decide)
  exact ⟨h.1 ⟨by decide, by decide⟩, h.2 (by decide)⟩

/-! ## Grid lemmas -/

theorem Grid.ext' (g g' : Grid) (h : ∀ r c, g.cell r c = g'.cell r c) : g = g' := by
  cases g
  cases g'
  simp only [Grid.mk.injEq]
  funext r c
  exact h r c

theorem writeCell_cell (g : Grid) (r c : Nat) (v : CellVal) (r' c' : Nat) :
    (writeCell g r c v).cell r' c' = if r' = r ∧ c' = c then v else g.cell r' c' := rfl

theorem foldClear_cell (cr : Nat) :
    ∀ (n a : Nat) (g : Grid) (r c : Nat),
      ((List.range' a n).foldl (fun acc x => writeCell acc cr x CellVal.absent) g).cell r c =
        if r = cr ∧ a ≤ c ∧ c < a + n then CellVal.absent else g.cell r c := by
  intro n
  induction n with
  | zero =>
    intro a g r c
    simp only [List.range', List.foldl_nil]
    split_ifs with h
    · omega
    · rfl
  | succ m ih =>
    intro a g r c
    rw [List.range'_succ, List.foldl_cons, ih]
    rw [writeCell_cell]
    split_ifs <;> first | rfl | omega

theorem clearLabel_cell (g : Grid) (cr : Nat) (r c : Nat) :
    (clearLabel g cr).cell r c =
      if r = cr ∧ 2 ≤ c ∧ c < 20 then
        (if c = 2 then CellVal.str "% Change" else CellVal.absent)
      else g.cell r c := by
  unfold clearLabel
  rw [writeCell_cell, foldClear_cell]
  split_ifs <;> first | rfl | omega

theorem clearLabel_clearLabel (g : Grid) (cr : Nat) :
    clearLabel (clearLabel g cr) cr = clearLabel g cr := by
  apply Grid.ext'
  intro r c
  rw [clearLabel_cell, clearLabel_cell]
  split_ifs <;> rfl

theorem writeChanges_cell_off (cr : Nat) (totals janAug : List (String × ℚ))
    (y0 : String) (rt : ℚ) :
    ∀ (cols : List (Nat × String)) (g2 : Grid) (r c : Nat),
      (r ≠ cr ∨ ∀ p ∈ cols, p.1 ≠ c) →
      (writeChanges g2 cr totals janAug y0 rt cols).cell r c = g2.cell r c := by
  intro cols
  induction cols with
  | nil => intro g2 r c _; rfl
  | cons p0 rest ih =>
    intro g2 r c h
    have hrest : r ≠ cr ∨ ∀ p ∈ rest, p.1 ≠ c := by
      rcases h with h | h
      · exact Or.inl h
      · exact Or.inr fun p hp => h p (by simp [hp])
    have hhead : ∀ v, (writeCell g2 cr p0.1 v).cell r c = g2.cell r c := by
      intro v
      rw [writeCell_cell]
      rcases h with h | h
      · rw [if_neg]; intro hc; exact h hc.1
      · rw [if_neg]; intro hc; exact h p0 (by simp) hc.2.symm
    simp only [writeChanges, List.foldl_cons]
    rcases hw : writeStepVal totals janAug y0 rt p0 with _ | v <;> simp only [hw]
    · exact ih g2 r c hrest
    · exact (ih (writeCell g2 cr p0.1 v) r c hrest).trans (hhead v)

theorem writeChanges_cell_mem (cr : Nat) (totals janAug : List (String × ℚ))
    (y0 : String) (rt : ℚ) :
    ∀ (cols : List (Nat × String)) (g2 : Grid) (col : Nat) (y : String),
      (col, y) ∈ cols → (cols.map Prod.fst).Nodup →
      (writeChanges g2 cr totals janAug y0 rt cols).cell cr col =
        match writeStepVal totals janAug y0 rt (col, y) with
        | some v => v
        | none => g2.cell cr col := by
  intro cols
  induction cols with
  | nil => intro g2 col y hmem _; simp at hmem
  | cons p0 rest ih =>
    intro g2 col y hmem hnd
    have hnd0 : p0.1 ∉ rest.map Prod.fst := by
      simp only [List.map_cons, List.nodup_cons] at hnd
      exact hnd.1
    have hndr : (rest.map Prod.fst).Nodup := by
      simp only [List.map_cons, List.nodup_cons] at hnd
      exact hnd.2
    rcases List.mem_cons.mp hmem with heq | hmem'
    · rcases p0 with ⟨pc, py⟩
      rw [Prod.mk.injEq] at heq
      obtain ⟨h1, h2⟩ := heq
      subst h1
      subst h2
      have hrestoff : ∀ g' : Grid,
          (writeChanges g' cr totals janAug y0 rt rest).cell cr col = g'.cell cr col := by
        intro g'
        refine writeChanges_cell_off cr totals janAug y0 rt rest g' cr col (Or.inr ?_)
        intro p hp hpc
        exact hnd0 (List.mem_map.mpr ⟨p, hp, hpc⟩)
      have hstep0 : writeChanges g2 cr totals janAug y0 rt ((col, y) :: rest) =
          writeChanges (match writeStepVal totals janAug y0 rt (col, y) with
            | some v => writeCell g2 cr (col, y).1 v
            | none => g2) cr totals janAug y0 rt rest := rfl
      rw [hstep0]
      rcases hw : writeStepVal totals janAug y0 rt (col, y) with _ | v <;> simp only [hw]
      · exact hrestoff g2
      · exact (hrestoff (writeCell g2 cr col v)).trans
          (by rw [writeCell_cell, if_pos ⟨rfl, rfl⟩])
    · have hne : p0.1 ≠ col := by
        intro hcc
        exact hnd0 (hcc ▸ List.mem_map.mpr ⟨(col, y), hmem', rfl⟩)
      have hstep : writeChanges g2 cr totals janAug y0 rt (p0 :: rest) =
          writeChanges (match writeStepVal totals janAug y0 rt p0 with
            | some v => writeCell g2 cr p0.1 v
            | none => g2) cr totals janAug y0 rt rest := rfl
      rw [hstep]
      rcases hw : writeStepVal totals janAug y0 rt p0 with _ | v <;> simp only [hw]
      · exact ih g2 col y hmem' hndr
      · refine (ih (writeCell g2 cr p0.1 v) col y hmem' hndr).trans ?_
        rcases writeStepVal totals janAug y0 rt (col, y) with _ | v'
        · simp only []
          rw [writeCell_cell, if_neg]
          intro hc
          exact hne hc.2.symm
        · rfl

theorem sortYearCols_mem (p : Nat × String) (l : List (Nat × String))
    (h : p ∈ sortYearCols l) : p ∈ l := by
  unfold sortYearCols at h
  rcases List.mem_append.mp h with h1 | h1
  · rcases List.mem_append.mp h1 with h2 | h2 <;> exact List.mem_of_mem_filter h2
  · exact List.mem_of_mem_filter h1

theorem collectYearCols_mem_bounds (g : Grid) (hr : Nat) (col : Nat) (y : String)
    (h : (col, y) ∈ collectYearCols g hr) : 3 ≤ col ∧ col < 20 := by
  unfold collectYearCols at h
  obtain ⟨c0, hc0, hc0'⟩ := List.mem_filterMap.mp h
  rcases hcl : classifyYearHeader (g.cell hr c0) with _ | y'
  · rw [hcl] at hc0'
    simp at hc0'
  · rw [hcl] at hc0'
    simp only [Option.map_some', Option.some.injEq, Prod.mk.injEq] at hc0'
    obtain ⟨h1, _⟩ := hc0'
    have := List.mem_range'_1.mp hc0
    omega

theorem sortYearCols_mem_bounds (g : Grid) (hr : Nat) (col : Nat) (y : String)
    (h : (col, y) ∈ sortYearCols (collectYearCols g hr)) : 3 ≤ col ∧ col < 20 :=
  collectYearCols_mem_bounds g hr col y (sortYearCols_mem _ _ h)

theorem wpcrBody_cell_off (g2 : Grid) (df : DataFrame) (si : SectionInfo)
    (wsD : Option Grid) (tr cr : Nat) (r c : Nat)
    (h : r ≠ cr ∨ c < 3 ∨ 20 ≤ c) :
    (wpcrBody g2 df si wsD tr cr).cell r c = g2.cell r c := by
  simp only [wpcrBody]
  split
  · rfl
  · split
    · rfl
    · split
      · rfl
      · split
        · rfl
        · split
          · rfl
          · refine writeChanges_cell_off _ _ _ _ _ _ g2 r c ?_
            rcases h with h | h
            · exact Or.inl h
            · refine Or.inr fun p hp => ?_
              have hb := sortYearCols_mem_bounds g2 si.header_row p.1 p.2 (by exact hp)
              omega

theorem detectFold_congr (g g' : Grid) :
    ∀ (l : List Nat) (p : Option Nat × Option Nat),
      (∀ r ∈ l, rowClass (g'.cell r 2) = rowClass (g.cell r 2)) →
      l.foldl (fun p r =>
        match rowClass (g'.cell r 2) with
        | some true => (some r, p.2)
        | some false => (p.1, some r)
        | none => p) p =
      l.foldl (fun p r =>
        match rowClass (g.cell r 2) with
        | some true => (some r, p.2)
        | some false => (p.1, some r)
        | none => p) p := by
  intro l
  induction l with
  | nil => intro p _; rfl
  | cons r0 rs ih =>
      intro p hp
      simp only [List.foldl_cons]
      rw [hp r0 (by simp)]
      exact ih _ fun r hr => hp r (by simp [hr])

theorem detect_congr (g g' : Grid) (si : SectionInfo)
    (h : ∀ r ∈ rowRange si, rowClass (g'.cell r 2) = rowClass (g.cell r 2)) :
    detectRows g' si = detectRows g si := by
  unfold detectRows
  exact detectFold_congr g g' (rowRange si) (none, none) h

theorem detectFold_snd_class (g : Grid) :
    ∀ (l : List Nat) (p : Option Nat × Option Nat),
      (∀ x, p.2 = some x → rowClass (g.cell x 2) = some false) →
      ∀ cr, (l.foldl (fun p r =>
          match rowClass (g.cell r 2) with
          | some true => (some r, p.2)
          | some false => (p.1, some r)
          | none => p) p).2 = some cr →
        rowClass (g.cell cr 2) = some false := by
  intro l
  induction l with
  | nil => intro p hp cr h; exact hp cr h
  | cons r0 rs ih =>
      intro p hp cr h
      simp only [List.foldl_cons] at h
      rcases hcl : rowClass (g.cell r0 2) with _ | b
      · rw [hcl] at h
        exact ih p hp cr h
      · rw [hcl] at h
        cases b
        · refine ih (p.1, some r0) ?_ cr h
          intro x hx
          have hx' : r0 = x := by simpa using hx
          exact hx' ▸ hcl
        · exact ih (some r0, p.2) (fun x hx => hp x hx) cr h

theorem detectRows_snd_class (g : Grid) (si : SectionInfo) (cr : Nat)
    (h : (detectRows g si).2 = some cr) : rowClass (g.cell cr 2) = some false := by
  unfold detectRows at h
  refine detectFold_snd_class g (rowRange si) (none, none) ?_ cr h
  intro x hx
  simp at hx

/-- Claim C7: the %Change-row recompute is idempotent — a second execution
on the grid a first execution produced leaves every cell (the %Change row
included) unchanged.  The first run's writes are confined to the %Change
row, whose clear + label step restores the same post-clear state, and the
Total / %Change detection and every value source (snapshot, Table, cleared
worksheet) coincide between the runs. -/
theorem C7_wpcr_idempotent (g : Grid) (df : DataFrame) (si : SectionInfo)
    (wsD : Option Grid) :
    write_percent_change_row (write_percent_change_row g df si wsD) df si wsD =
      write_percent_change_row g df si wsD := by
  rcases hdet : detectRows g si with ⟨t?, c?⟩
  rcases t? with _ | tr
  · have h1 : write_percent_change_row g df si wsD = g := by
      unfold write_percent_change_row
      rw [hdet]
    simp only [h1]
  rcases c? with _ | cr
  · have h1 : write_percent_change_row g df si wsD = g := by
      unfold write_percent_change_row
      rw [hdet]
    simp only [h1]
  · have hg' : write_percent_change_row g df si wsD =
        wpcrBody (clearLabel g cr) df si wsD tr cr := by
      unfold write_percent_change_row
      rw [hdet]
    have hoff : ∀ r c, (r ≠ cr ∨ c < 3 ∨ 20 ≤ c) →
        (wpcrBody (clearLabel g cr) df si wsD tr cr).cell r c =
          (clearLabel g cr).cell r c :=
      fun r c h => wpcrBody_cell_off _ df si wsD tr cr r c h
    have hclass : rowClass (g.cell cr 2) = some false :=
      detectRows_snd_class g si cr (by rw [hdet])
    have hcells : ∀ r ∈ rowRange si,
        rowClass ((wpcrBody (clearLabel g cr) df si wsD tr cr).cell r 2) =
          rowClass (g.cell r 2) := by
      intro r _
      by_cases hrc : r = cr
      · subst hrc
        rw [hoff r 2 (Or.inr (Or.inl (by omega)))]
        rw [clearLabel_cell, if_pos ⟨rfl, by omega, by omega⟩, if_pos rfl]
        rw [hclass]
        decide
      · rw [hoff r 2 (Or.inl hrc)]
        rw [clearLabel_cell, if_neg (fun hc => hrc hc.1)]
    have hdet' : detectRows (wpcrBody (clearLabel g cr) df si wsD tr cr) si =
        (some tr, some cr) := by
      rw [detect_congr g _ si hcells, hdet]
    have hclear : clearLabel (wpcrBody (clearLabel g cr) df si wsD tr cr) cr =
        clearLabel g cr := by
      apply Grid.ext'
      intro r c
      rw [clearLabel_cell, clearLabel_cell]
      by_cases hin : r = cr ∧ 2 ≤ c ∧ c < 20
      · rw [if_pos hin, if_pos hin]
      · rw [if_neg hin, if_neg hin]
        have h' : r ≠ cr ∨ c < 3 ∨ 20 ≤ c := by omega
        rw [hoff r c h', clearLabel_cell, if_neg hin]
    rw [hg']
    unfold write_percent_change_row
    rw [hdet']
    show wpcrBody (clearLabel (wpcrBody (clearLabel g cr) df si wsD tr cr) cr)
        df si wsD tr cr = wpcrBody (clearLabel g cr) df si wsD tr cr
    rw [hclear]

/-- Claim C6, counterexample: `gC6` / `dfC6` have a single resolvable year
column both for the metrics engine and for the writer's header scan, yet
the writer still writes the Total row (cell (12,3) goes from absent to `5`)
and still clears the %Change row (cell (13,4) goes from the stale `99` to
absent). -/
theorem C6_counterexample :
    (identify_year_columns dfC6.columns).length = 1
    ∧ (sortYearCols (collectYearCols (clearLabel gC6 13) 10)).length = 1
    ∧ (write_percent_change_row (write_total_row gC6 dfC6 siC6) dfC6 siC6 none).cell 12 3 =
        CellVal.num 5
    ∧ gC6.cell 12 3 = CellVal.absent
    ∧ (write_percent_change_row (write_total_row gC6 dfC6 siC6) dfC6 siC6 none).cell 13 4 =
        CellVal.absent
    ∧ gC6.cell 13 4 = CellVal.num 99 := by
  refine ⟨by decide, by decide, by decide, by decide, by decide, by decide⟩

/-- Claim C6 (amended): with fewer than two resolvable year roles in the
Table and fewer than two writer-resolved year columns in the grid header,
every computed YOY / LM is the absence-marker and the %Change recompute
writes no percentage — it only clears the located %Change row and rewrites
its label; Total-row writes are not suppressed (the counterexample shows one
happening). -/
theorem C6_inactive_writer (df : DataFrame) (g : Grid) (si : SectionInfo)
    (wsD : Option Grid) (tr cr : Nat)
    (hroles : (identify_year_columns df.columns).length < 2)
    (hdet : detectRows g si = (some tr, some cr))
    (hcols : (sortYearCols (collectYearCols (clearLabel g cr) si.header_row)).length < 2) :
    calculate_metrics df =
      (df.rows.map fun _ => CellVal.absent, df.rows.map fun _ => CellVal.absent)
    ∧ write_percent_change_row g df si wsD = clearLabel g cr := by
  constructor
  · exact calcMetrics_inactive df (Or.inl hroles)
  · unfold write_percent_change_row
    rw [hdet]
    show wpcrBody (clearLabel g cr) df si wsD tr cr = clearLabel g cr
    simp only [wpcrBody]
    rw [if_pos hcols]

/-- Claim C6 witness: the concrete `gC6` scenario. -/
theorem C6_inactive_writer_witness :
    calculate_metrics dfC6 =
      (dfC6.rows.map fun _ => CellVal.absent, dfC6.rows.map fun _ => CellVal.absent)
    ∧ write_percent_change_row gC6 dfC6 siC6 none = clearLabel gC6 13 :=
  C6_inactive_writer dfC6 gC6 siC6 none 12 13 (by decide) (by decide) (by decide)

/-- Claim C4, counterexample: in `gC4` the year columns are 2023 and 2024,
so 2024 is the latest; Jan–Aug sums were accepted for 2024 (20) and its
immediate predecessor 2023 (10 > 0), yet the %Change cell of the 2024
column receives the Total-vs-reference text "200.00%", not the
partial-period comparison "100.00% (till Aug)" the claim prescribes — the
partial rule is hard-coded to the year 2025. -/
theorem C4_counterexample :
    sortYearCols (collectYearCols (clearLabel gC4 14) 10) = [(3, "2023"), (4, "2024")]
    ∧ assocLast (janAugList (clearLabel gC4 14) none siC4 13
        [(3, "2023"), (4, "2024")]) "2024" = some 20
    ∧ assocLast (janAugList (clearLabel gC4 14) none siC4 13
        [(3, "2023"), (4, "2024")]) "2023" = some 10
    ∧ fmtFixed2 ((20 - 10) / 10 * 100) ++ "% (till Aug)" = "100.00% (till Aug)"
    ∧ (write_percent_change_row gC4 dfC4 siC4 none).cell 14 4 = CellVal.str "200.00%"
    ∧ CellVal.str "200.00%" ≠ CellVal.str "100.00% (till Aug)" := by
  refine ⟨by decide, by decide, by decide, by decide, by decide, by decide⟩

/-- Claim C4 (amended): the lowest year of the sorted physical year columns
is the reference; for every year column of the section, once the recompute
reaches its write step (Total / %Change rows located, at least two year
columns, at least two accepted totals, reference total positive): a
reference-year column stays blank (cleared); the 2025 column, when a 2024
Jan–Aug sum was accepted, receives the Jan–Aug comparison annotated
"(till Aug)" if its own Jan–Aug sum was accepted and stays blank otherwise
(no Total fallback); every other non-reference year column receives the
Total-vs-reference percentage when its total was accepted and stays blank
otherwise. -/
theorem C4_change_row_rule (g : Grid) (df : DataFrame) (si : SectionInfo)
    (wsD : Option Grid) (tr cr : Nat)
    (hdet : detectRows g si = (some tr, some cr))
    (c0 : Nat) (y0 : String) (rest : List (Nat × String))
    (hhead : sortYearCols (collectYearCols (clearLabel g cr) si.header_row) =
      (c0, y0) :: rest)
    (hnd : (((c0, y0) :: rest).map Prod.fst).Nodup)
    (hlen : 2 ≤ ((c0, y0) :: rest).length)
    (hkeys : 2 ≤ keysCount (totalsList wsD df tr ((c0, y0) :: rest)))
    (rt : ℚ)
    (href : assocLast (totalsList wsD df tr ((c0, y0) :: rest)) y0 = some rt)
    (hrt : 0 < rt)
    (col : Nat) (y : String)
    (hmem : (col, y) ∈ ((c0, y0) :: rest : List (Nat × String))) :
    (write_percent_change_row g df si wsD).cell cr col =
      (if y = y0 then CellVal.absent
       else if y = "2025" ∧
           (assocLast (janAugList (clearLabel g cr) wsD si tr ((c0, y0) :: rest))
             "2024").isSome = true then
         match
           assocLast (janAugList (clearLabel g cr) wsD si tr ((c0, y0) :: rest)) "2024",
           assocLast (janAugList (clearLabel g cr) wsD si tr ((c0, y0) :: rest)) "2025"
         with
         | some p24, some cur =>
             if 0 < p24 then
               CellVal.str (fmtFixed2 ((cur - p24) / p24 * 100) ++ "% (till Aug)")
             else CellVal.absent
         | _, _ => CellVal.absent
       else
         match assocLast (totalsList wsD df tr ((c0, y0) :: rest)) y with
         | some ct =>
             CellVal.str (format_percentage_for_excel (some ((ct - rt) / rt * 100)))
         | none => CellVal.absent) := by
  have hg' : write_percent_change_row g df si wsD =
      wpcrBody (clearLabel g cr) df si wsD tr cr := by
    unfold write_percent_change_row
    rw [hdet]
  have hbody : wpcrBody (clearLabel g cr) df si wsD tr cr =
      writeChanges (clearLabel g cr) cr (totalsList wsD df tr ((c0, y0) :: rest))
        (janAugList (clearLabel g cr) wsD si tr ((c0, y0) :: rest)) y0 rt
        ((c0, y0) :: rest) := by
    simp only [wpcrBody]
    rw [hhead]
    simp only [href]
    rw [if_neg (show ¬ ((c0, y0) :: rest).length < 2 by omega)]
    rw [if_neg (show ¬ keysCount (totalsList wsD df tr ((c0, y0) :: rest)) < 2 by omega)]
    rw [if_neg (not_le.mpr hrt)]
  rw [hg', hbody]
  rw [writeChanges_cell_mem cr _ _ y0 rt ((c0, y0) :: rest) (clearLabel g cr) col y hmem hnd]
  have hbounds : 3 ≤ col ∧ col < 20 :=
    sortYearCols_mem_bounds (clearLabel g cr) si.header_row col y (by rw [hhead]; exact hmem)
  have hclr : (clearLabel g cr).cell cr col = CellVal.absent := by
    rw [clearLabel_cell, if_pos ⟨rfl, by omega, by omega⟩, if_neg (by omega)]
  unfold writeStepVal
  by_cases hy : y = y0
  · rw [if_pos (show ((col, y).2 == y0) = true by simp [hy])]
    rw [if_pos hy]
    exact hclr
  · rw [if_neg (by simpa using hy), if_neg hy]
    by_cases h25 : y = "2025" ∧
        (assocLast (janAugList (clearLabel g cr) wsD si tr ((c0, y0) :: rest))
          "2024").isSome = true
    · obtain ⟨hy25, hsome⟩ := h25
      rw [if_pos (show ((col, y).2 == "2025" &&
          (assocLast (janAugList (clearLabel g cr) wsD si tr ((c0, y0) :: rest))
            "2024").isSome) = true by simp [hy25, hsome])]
      rw [if_pos ⟨hy25, hsome⟩]
      obtain ⟨p24, hp24⟩ := Option.isSome_iff_exists.mp hsome
      rcases hcur : assocLast (janAugList (clearLabel g cr) wsD si tr ((c0, y0) :: rest))
          "2025" with _ | cur
      · simp only [hp24, hcur]
        exact hclr
      · simp only [hp24, hcur]
        split_ifs <;> first | rfl | exact hclr
    · rw [if_neg (by
        intro hb
        apply h25
        have hb' := Bool.and_eq_true_iff.mp hb
        exact ⟨by simpa using hb'.1, hb'.2⟩)]
      rw [if_neg h25]
      rcases htot : assocLast (totalsList wsD df tr ((c0, y0) :: rest)) y with _ | ct
      · simp only [htot]
        exact hclr
      · simp only [htot]

/-- Claim C4 witness: in `gC4` the non-reference 2024 column receives the
Total-vs-reference percentage (60 vs 20: "200.00%"). -/
theorem C4_change_row_rule_witness :
    (write_percent_change_row gC4 dfC4 siC4 none).cell 14 4 = CellVal.str "200.00%" := by
  have h := C4_change_row_rule gC4 dfC4 siC4 none 13 14 (by decide) 3 "2023"
    [(4, "2024")] (by decide) (by decide) (by decide) (by decide) 20 (by decide)
    (by decide) 4 "2024" (by decide)
  exact h.trans (by decide)

/-! ## Extraction lemmas -/

theorem collectRows_append_blank :
    ∀ (pre post : List (List CellVal)) (b : List CellVal),
      b.any truthy = false →
      collectRows (pre ++ b :: post) = collectRows pre := by
  intro pre
  induction pre with
  | nil =>
    intro post b hb
    simp [collectRows, hb]
  | cons r rs ih =>
    intro post b hb
    simp only [List.cons_append, collectRows]
    rw [show collectRows (rs.append (b :: post)) = collectRows rs from ih post b hb]

theorem collectRows_skip_mid :
    ∀ (pre post : List (List CellVal)) (r : List CellVal),
      r.any truthy = true → truthy (firstField r) = false →
      collectRows (pre ++ r :: post) = collectRows (pre ++ post) := by
  intro pre
  induction pre with
  | nil =>
    intro post r h1 h2
    simp [collectRows, h1, h2]
  | cons x xs ih =>
    intro post r h1 h2
    simp only [List.cons_append, collectRows]
    rw [show collectRows (xs.append (r :: post)) = collectRows (xs.append post) from
      ih post r h1 h2]

theorem length_headerLabels (g : Grid) (maxCol hr : Nat) :
    (headerLabels g maxCol hr).length = maxCol - 1 := by
  simp [headerLabels]

/-! ## Write-back lemmas -/

theorem writeVals_cell_off (ds c : Nat) :
    ∀ (vs : List CellVal) (g : Grid) (k : Nat) (r' c' : Nat),
      (c' ≠ c ∨ r' < ds + k) →
      (writeVals ds c g k vs).cell r' c' = g.cell r' c' := by
  intro vs
  induction vs with
  | nil => intro g k r' c' _; rfl
  | cons v rest ih =>
    intro g k r' c' h
    have hstep : writeVals ds c g k (v :: rest) =
        writeVals ds c
          (match v with
           | CellVal.num q =>
               writeCell g (ds + k) c (CellVal.str (format_percentage_for_excel (some q)))
           | _ => g) (k + 1) rest := rfl
    rw [hstep]
    have h' : c' ≠ c ∨ r' < ds + (k + 1) := by
      rcases h with h | h
      · exact Or.inl h
      · right; omega
    rw [ih _ (k + 1) r' c' h']
    rcases v with _ | s | q
    · rfl
    · rfl
    · rw [writeCell_cell, if_neg]
      intro hc
      rcases h with h | h
      · exact h hc.2
      · omega

theorem writeVals_cell_at (ds c : Nat) :
    ∀ (vs : List CellVal) (g : Grid) (k i : Nat), i < vs.length →
      (writeVals ds c g k vs).cell (ds + k + i) c =
        match vs[i]? with
        | some (CellVal.num q) => CellVal.str (format_percentage_for_excel (some q))
        | _ => g.cell (ds + k + i) c := by
  intro vs
  induction vs with
  | nil => intro g k i hi; simp at hi
  | cons v rest ih =>
    intro g k i hi
    cases i with
    | zero =>
      have hoff : ∀ g' : Grid,
          (writeVals ds c g' (k + 1) rest).cell (ds + k + 0) c =
            g'.cell (ds + k + 0) c := fun g' =>
        writeVals_cell_off ds c rest g' (k + 1) _ _ (Or.inr (by omega))
      rcases v with _ | s | q
      · show (writeVals ds c g (k + 1) rest).cell (ds + k + 0) c = _
        rw [hoff g]
        simp [List.getElem?_cons_zero]
      · show (writeVals ds c g (k + 1) rest).cell (ds + k + 0) c = _
        rw [hoff g]
        simp [List.getElem?_cons_zero]
      · show (writeVals ds c
            (writeCell g (ds + k) c (CellVal.str (format_percentage_for_excel (some q))))
            (k + 1) rest).cell (ds + k + 0) c = _
        rw [hoff _, writeCell_cell, if_pos ⟨by omega, rfl⟩]
        simp [List.getElem?_cons_zero]
    | succ i' =>
      have harith : ds + k + (i' + 1) = ds + (k + 1) + i' := by omega
      have hi' : i' < rest.length := by simpa using hi
      rcases v with _ | s | q
      · show (writeVals ds c g (k + 1) rest).cell (ds + k + (i' + 1)) c = _
        rw [harith, ih g (k + 1) i' hi']
        simp only [List.getElem?_cons_succ]
      · show (writeVals ds c g (k + 1) rest).cell (ds + k + (i' + 1)) c = _
        rw [harith, ih g (k + 1) i' hi']
        simp only [List.getElem?_cons_succ]
      · show (writeVals ds c
            (writeCell g (ds + k) c (CellVal.str (format_percentage_for_excel (some q))))
            (k + 1) rest).cell (ds + k + (i' + 1)) c = _
        rw [harith, ih _ (k + 1) i' hi']
        have hb : (writeCell g (ds + k) c
              (CellVal.str (format_percentage_for_excel (some q)))).cell
                (ds + (k + 1) + i') c = g.cell (ds + (k + 1) + i') c := by
          rw [writeCell_cell, if_neg]
          intro hc
          omega
        rw [hb]
        simp only [List.getElem?_cons_succ]

/-! ## Extraction and write-back claims -/

/-- Claim C8: extraction reads from `data_start_row` on and stops at the
first fully blank row even when `data_end_row` extends further (truncating
the section there); the retained rows keep their contiguous 0-based list
order, and zero retained rows is a valid result (second conjunct). -/
theorem C8_blank_truncation (g : Grid) (maxCol : Nat) (si : SectionInfo) (j : Nat)
    (hpos : 1 ≤ si.data_start_row)
    (h1 : si.data_start_row ≤ j) (h2 : j ≤ si.data_end_row)
    (hblank : ∀ c ∈ List.range' 2 (maxCol - 1), g.cell j c = CellVal.absent) :
    extract_section_data g maxCol si =
      extract_section_data g maxCol ⟨si.header_row, si.data_start_row, j - 1⟩
    ∧ (j = si.data_start_row → (extract_section_data g maxCol si).rows = []) := by
  have hsplit : rowRange si =
      List.range' si.data_start_row (j - si.data_start_row) ++
        j :: List.range' (j + 1) (si.data_end_row - j) := by
    have e1 : si.data_end_row + 1 - si.data_start_row =
        (si.data_end_row + 1 - j) + (j - si.data_start_row) := by omega
    have e2 : si.data_start_row + (j - si.data_start_row) = j := by omega
    have e3 : si.data_end_row + 1 - j = (si.data_end_row - j) + 1 := by omega
    rw [rowRange, e1, ← List.range'_append_1 si.data_start_row (j - si.data_start_row)
      (si.data_end_row + 1 - j), e2, e3, List.range'_succ]
  have hr2 : rowRange ⟨si.header_row, si.data_start_row, j - 1⟩ =
      List.range' si.data_start_row (j - si.data_start_row) := by
    simp only [rowRange]
    congr 1
    omega
  have hblankrow :
      (((List.range' 2 (maxCol - 1)).map (g.cell j)).any truthy) = false := by
    rw [List.any_eq_false]
    intro x hx
    obtain ⟨c, hc, rfl⟩ := List.mem_map.mp hx
    rw [hblank c hc]
    simp [truthy]
  have hmain : extract_section_data g maxCol si =
      extract_section_data g maxCol ⟨si.header_row, si.data_start_row, j - 1⟩ := by
    simp only [extract_section_data, length_headerLabels]
    rw [hsplit, hr2]
    simp only [List.map_append, List.map_cons]
    rw [collectRows_append_blank _ _ _ hblankrow]
  refine ⟨hmain, fun hj => ?_⟩
  have hrows : (extract_section_data g maxCol
      ⟨si.header_row, si.data_start_row, j - 1⟩).rows = [] := by
    have hz : j - 1 + 1 - si.data_start_row = 0 := by omega
    simp [extract_section_data, rowRange, hz, collectRows]
  rw [hmain, hrows]

/-- Claim C8 witness: in `gC8` row 12 is blank, so extraction over rows
11–13 equals extraction over row 11 only. -/
theorem C8_blank_truncation_witness :
    extract_section_data gC8 3 siC8 = extract_section_data gC8 3 ⟨10, 11, 11⟩ := by
  have h := C8_blank_truncation gC8 3 siC8 12 (by decide) (by decide) (by decide)
    (by decide)
  exact h.1

/-- Claim C10: a data row whose read cells are all falsy (empty, absent, or
the number 0) terminates extraction exactly as a blank row does; the
retained-row check drops any row whose first field is the number 0 (the rest
of the scan continues); and a month row recording zero in every read cell
silently ends the section's data even though it is not blank (all its cells
are present). -/
theorem C10_falsy_termination :
    (∀ (pre post : List (List CellVal)) (b : List CellVal),
        b.any truthy = false → collectRows (pre ++ b :: post) = collectRows pre)
    ∧ (∀ (pre post : List (List CellVal)) (r : List CellVal),
        r.any truthy = true → truthy (firstField r) = false →
        collectRows (pre ++ r :: post) = collectRows (pre ++ post))
    ∧ (∀ rest : List (List CellVal),
        collectRows ([CellVal.num 0, CellVal.num 0, CellVal.num 0] :: rest) = []
        ∧ [CellVal.num 0, CellVal.num 0, CellVal.num 0].all
            (fun c => !(c == CellVal.absent)) = true) := by
  refine ⟨collectRows_append_blank, collectRows_skip_mid, fun rest => ⟨?_, by decide⟩⟩
  have hb : ([CellVal.num 0, CellVal.num 0, CellVal.num 0] : List CellVal).any truthy
      = false := by decide
  simp [collectRows, hb]

/-- Claim C10 witness: a row with first field `0` and a nonzero year value is
dropped while extraction continues past it. -/
theorem C10_falsy_termination_witness :
    collectRows
      [[CellVal.str "January", CellVal.num 1], [CellVal.num 0, CellVal.num 2],
       [CellVal.str "February", CellVal.num 2]] =
    collectRows
      [[CellVal.str "January", CellVal.num 1], [CellVal.str "February", CellVal.num 2]] :=
  C10_falsy_termination.2.1 [[CellVal.str "January", CellVal.num 1]]
    [[CellVal.str "February", CellVal.num 2]] [CellVal.num 0, CellVal.num 2]
    (by decide) (by decide)

/-- Claim C9: during Table write-back with both metric columns resolved, a
numeric YOY / LM value of row `i` is written as percentage text at grid row
`data_start_row + i` in its resolved column, while an absence value leaves
the corresponding grid cell exactly as it was (no other row or metric write
touches it). -/
theorem C9_metric_write_back (g : Grid) (ds : Nat) (cy cl : Nat)
    (yoy lm : List CellVal) (hcols : cy ≠ cl) (i : Nat) :
    ((∀ q : ℚ, yoy[i]? = some (CellVal.num q) →
        (write_metrics_cells g ds (some (cy, yoy)) (some (cl, lm))).cell (ds + i) cy =
          CellVal.str (format_percentage_for_excel (some q)))
      ∧ (yoy[i]? = some CellVal.absent →
        (write_metrics_cells g ds (some (cy, yoy)) (some (cl, lm))).cell (ds + i) cy =
          g.cell (ds + i) cy))
    ∧ ((∀ q : ℚ, lm[i]? = some (CellVal.num q) →
        (write_metrics_cells g ds (some (cy, yoy)) (some (cl, lm))).cell (ds + i) cl =
          CellVal.str (format_percentage_for_excel (some q)))
      ∧ (lm[i]? = some CellVal.absent →
        (write_metrics_cells g ds (some (cy, yoy)) (some (cl, lm))).cell (ds + i) cl =
          g.cell (ds + i) cl)) := by
  have hwm : write_metrics_cells g ds (some (cy, yoy)) (some (cl, lm)) =
      writeVals ds cl (writeVals ds cy g 0 yoy) 0 lm := rfl
  have harith : ds + 0 + i = ds + i := by omega
  constructor
  · have hLMoff :
        (writeVals ds cl (writeVals ds cy g 0 yoy) 0 lm).cell (ds + i) cy =
          (writeVals ds cy g 0 yoy).cell (ds + i) cy :=
      writeVals_cell_off ds cl lm _ 0 (ds + i) cy (Or.inl hcols)
    constructor
    · intro q hq
      have hi : i < yoy.length := (List.getElem?_eq_some_iff.mp hq).1
      rw [hwm, hLMoff]
      have h := writeVals_cell_at ds cy yoy g 0 i hi
      rw [harith] at h
      rw [h, hq]
    · intro hq
      have hi : i < yoy.length := (List.getElem?_eq_some_iff.mp hq).1
      rw [hwm, hLMoff]
      have h := writeVals_cell_at ds cy yoy g 0 i hi
      rw [harith] at h
      rw [h, hq]
  · constructor
    · intro q hq
      have hi : i < lm.length := (List.getElem?_eq_some_iff.mp hq).1
      rw [hwm]
      have h := writeVals_cell_at ds cl lm (writeVals ds cy g 0 yoy) 0 i hi
      rw [harith] at h
      rw [h, hq]
    · intro hq
      have hi : i < lm.length := (List.getElem?_eq_some_iff.mp hq).1
      rw [hwm]
      have h := writeVals_cell_at ds cl lm (writeVals ds cy g 0 yoy) 0 i hi
      rw [harith] at h
      rw [h, hq]
      exact writeVals_cell_off ds cy yoy g 0 (ds + i) cl (Or.inl hcols.symm)

/-- Claim C9 witness: a numeric YOY value is written as percentage text and
an absence value leaves the (absent) cell untouched. -/
theorem C9_metric_write_back_witness :
    (write_metrics_cells gEmpty 11 (some (5, [CellVal.num 10, CellVal.absent]))
        (some (6, [CellVal.absent, CellVal.num 3]))).cell 11 5 = CellVal.str "10.00%"
    ∧ (write_metrics_cells gEmpty 11 (some (5, [CellVal.num 10, CellVal.absent]))
        (some (6, [CellVal.absent, CellVal.num 3]))).cell 12 5 = gEmpty.cell 12 5 := by
  have h0 := C9_metric_write_back gEmpty 11 5 6 [CellVal.num 10, CellVal.absent]
    [CellVal.absent, CellVal.num 3] (by decide) 0
  have h1 := C9_metric_write_back gEmpty 11 5 6 [CellVal.num 10, CellVal.absent]
    [CellVal.absent, CellVal.num 3] (by decide) 1
  exact ⟨(h0.1.1 10 (by decide)).trans (by decide), h1.1.2 (by decide)⟩

end GA4
